import Mathlib

/-!
Verification of the Moviesque backend (src/main.py, src/schemas.py):
the response normalizer (`map_item`, trailer selection in `title_details`)
and the watchlist store adapter (`add_watchlist_item`,
`update_watchlist_item`, `delete_watchlist_item`).

Python values that may be absent are modelled as `Option`; Python
truthiness of string fields (used by `or` and by `if x:`) is `truthy`;
Python `int(...)` which raises on a non-numeric string is modelled by
the partial parser `pyInt?`, and functions that can raise return
`Except String _`.  MongoDB's collection is modelled as a list of
documents, `update_one`/`delete_one` acting on the first `_id` match.
-/

namespace Moviesque

/-- Image base URL (w500 variant), src/main.py line 14. -/
def IMG_W500 : String := "https://image.tmdb.org/t/p/w500"

/-- Image base URL (original variant), src/main.py line 15. -/
def IMG_ORIGINAL : String := "https://image.tmdb.org/t/p/original"

/-- An upstream TMDb record as consumed by `map_item`: every field the
function reads, each possibly absent.  Upstream is a black box, so any
combination of fields is a legal input. -/
structure Item where
  id : Option Int := none
  media_type : Option String := none
  title : Option String := none
  name : Option String := none
  overview : Option String := none
  poster_path : Option String := none
  backdrop_path : Option String := none
  vote_average : Option ℚ := none
  vote_count : Option Int := none
  release_date : Option String := none
  first_air_date : Option String := none
deriving Repr, DecidableEq

/-- Python truthiness of an optional string: `None` and `""` are falsy. -/
def truthy : Option String → Bool
  | none => false
  | some s => !s.isEmpty

/-- Python `a or b` on optional strings: `b` whenever `a` is falsy. -/
def pyOr (a b : Option String) : Option String := if truthy a then a else b

/-- Value of a nonempty all-digit character run, `none` otherwise. -/
def digitsVal? (cs : List Char) : Option Nat :=
  if cs.isEmpty then none
  else cs.foldl (fun acc c => acc.bind fun n =>
    if c.isDigit then some (10 * n + (c.toNat - 48)) else none) (some 0)

/-- Surrounding whitespace stripped from a character list. -/
def stripWS (cs : List Char) : List Char :=
  ((cs.dropWhile Char.isWhitespace).reverse.dropWhile Char.isWhitespace).reverse

/-- Python `int(s)` on a string: optional surrounding whitespace, an
optional sign, then at least one digit; `none` models a raised
`ValueError`. -/
def pyInt? (s : String) : Option Int :=
  match stripWS s.toList with
  | [] => none
  | c :: rest =>
    if c = '-' then (digitsVal? rest).map (fun n => -(n : Int))
    else if c = '+' then (digitsVal? rest).map (fun n => (n : Int))
    else (digitsVal? (c :: rest)).map (fun n => (n : Int))

/-- First `-`-separated segment of a string, i.e. `s.split("-")[0]`: the
prefix of `s` up to (and excluding) the first dash.  (`"".split("-")[0]`
is `""`, matched by `firstSeg "" = ""`.) -/
def firstSeg (s : String) : String := String.mk (s.toList.takeWhile fun c => c != '-')

/-- The canonical item produced by `map_item` (src/main.py lines 48-58). -/
structure CanonItem where
  id : Option Int
  media_type : String
  title : Option String
  overview : Option String
  poster : Option String
  backdrop : Option String
  rating : Option ℚ
  votes : Option Int
  year : Option Int
deriving Repr, DecidableEq

/-- src/main.py line 45:
`item.get("media_type") or ("tv" if item.get("name") else "movie")`. -/
def resolve_media_type (item : Item) : String :=
  if truthy item.media_type then item.media_type.getD ""
  else if truthy item.name then "tv" else "movie"

/-- src/main.py line 47:
`date = item.get("release_date") or item.get("first_air_date")`. -/
def date_field (item : Item) : Option String :=
  pyOr item.release_date item.first_air_date

/-- src/main.py line 57: `int(date.split("-")[0]) if date else None`.
`int` raises `ValueError` on a non-numeric segment, modelled as
`Except.error`. -/
def resolve_year (item : Item) : Except String (Option Int) :=
  if truthy (date_field item) then
    match pyInt? (firstSeg ((date_field item).getD "")) with
    | some n => .ok (some n)
    | none => .error "ValueError"
  else .ok none

/-- src/main.py lines 43-58: the list-item normalizer.  The only
statement in the body that can raise (for an object input) is the
`int(...)` conversion of the date's first segment. -/
def map_item (item : Item) : Except String CanonItem :=
  (resolve_year item).map fun y =>
    { id := item.id
      media_type := resolve_media_type item
      title := pyOr item.title item.name
      overview := item.overview
      poster := if truthy item.poster_path then some (IMG_W500 ++ item.poster_path.getD "") else none
      backdrop := if truthy item.backdrop_path then some (IMG_ORIGINAL ++ item.backdrop_path.getD "") else none
      rating := item.vote_average
      votes := item.vote_count
      year := y }

/-- A video record from the `videos.results` sub-resource of a detail
response (src/main.py lines 170-172). -/
structure Video where
  site : Option String := none
  type : Option String := none
  key : Option String := none
deriving Repr, DecidableEq

/-- The predicate of the generator in src/main.py line 171:
`v.get("site") == "YouTube" and v.get("type") in ("Trailer", "Teaser")`. -/
def isYouTubeTrailer (v : Video) : Bool :=
  v.site == some "YouTube" && (v.type == some "Trailer" || v.type == some "Teaser")

/-- src/main.py lines 171-172: `next((v for v in videos if ...), None)`
then `yt.get("key") if yt else None`. -/
def trailer_key (videos : List Video) : Option String :=
  match videos.find? isYouTubeTrailer with
  | some yt => yt.key
  | none => none

/-! ### Watchlist store adapter -/

/-- MongoDB ObjectId, opaque identifier (claims quantify over
identifiers that are already well-formed, so the string-to-ObjectId
conversion is left out of the model). -/
abbrev OID := Nat

/-- A stored `watchlistitem` document, fields as inserted by the create
endpoint (src/main.py lines 63-73 plus the system-managed `_id`,
`created_at`, `updated_at`). -/
structure WatchlistDoc where
  oid : OID
  user_id : String
  tmdb_id : Option Int := none
  media_type : String := "movie"
  title : String
  poster : Option String := none
  backdrop : Option String := none
  year : Option Int := none
  status : String := "later"
  liked : Bool := false
  rating : Option ℚ := none
  created_at : Nat
  updated_at : Option Nat := none
deriving Repr, DecidableEq

/-- src/main.py lines 75-78: the PATCH payload model; a field left as
`None` was not provided. -/
structure WatchlistUpdate where
  status : Option String := none
  liked : Option Bool := none
  rating : Option ℚ := none
deriving Repr, DecidableEq

/-- src/main.py lines 205-206: `update_data` is empty exactly when every
payload field is `None`. -/
def WatchlistUpdate.isEmptyUpdate (p : WatchlistUpdate) : Bool :=
  p.status.isNone && p.liked.isNone && p.rating.isNone

/-- MongoDB `$set` with the `update_data` dict of src/main.py lines
205-208: the non-`None` payload fields plus a fresh `updated_at`. -/
def applySet (d : WatchlistDoc) (p : WatchlistUpdate) (now : Nat) : WatchlistDoc :=
  { d with
    status := match p.status with | some s => s | none => d.status
    liked := match p.liked with | some b => b | none => d.liked
    rating := match p.rating with | some r => some r | none => d.rating
    updated_at := some now }

/-- MongoDB `update_one` with filter `{"_id": id}`: applies `$set` to the
first matching document, returning the new collection and
`matched_count`. -/
def update_one (store : List WatchlistDoc) (id : OID) (p : WatchlistUpdate) (now : Nat) :
    List WatchlistDoc × Nat :=
  match store with
  | [] => ([], 0)
  | d :: rest =>
    if d.oid = id then (applySet d p now :: rest, 1)
    else
      let r := update_one rest id p now
      (d :: r.1, r.2)

/-- MongoDB `delete_one` with filter `{"_id": id}`: removes the first
matching document, returning the new collection and `deleted_count`. -/
def delete_one (store : List WatchlistDoc) (id : OID) : List WatchlistDoc × Nat :=
  match store with
  | [] => ([], 0)
  | d :: rest =>
    if d.oid = id then (rest, 1)
    else
      let r := delete_one rest id
      (d :: r.1, r.2)

/-- Outcome of an endpoint call: a successful JSON body, or an
`HTTPException` with status code and detail. -/
inductive ApiResult (α : Type) where
  | ok : α → ApiResult α
  | err : Nat → String → ApiResult α
deriving Repr, DecidableEq

/-- src/main.py lines 200-214, PATCH handler, assuming the store handle
is available and the id string parses.  Note the source raises
`HTTPException(404)` *inside* the `try:` block, so the blanket
`except Exception` catches it and re-raises it as a 500 whose detail is
`str(e)` (starlette renders an `HTTPException` as
`"{status_code}: {detail}"`). -/
def update_watchlist_item (store : List WatchlistDoc) (item_id : OID)
    (payload : WatchlistUpdate) (now : Nat) : ApiResult String × List WatchlistDoc :=
  if payload.isEmptyUpdate then (ApiResult.ok "no-op", store)
  else
    let r := update_one store item_id payload now
    if r.2 = 0 then (ApiResult.err 500 "404: Item not found", r.1)
    else (ApiResult.ok "ok", r.1)

/-- src/main.py lines 216-226, DELETE handler, same `try`/`except`
wrapping as the PATCH handler. -/
def delete_watchlist_item (store : List WatchlistDoc) (item_id : OID) :
    ApiResult String × List WatchlistDoc :=
  let r := delete_one store item_id
  if r.2 = 0 then (ApiResult.err 500 "404: Item not found", r.1)
  else (ApiResult.ok "ok", r.1)

/-- A raw POST /api/watchlist body before pydantic validation: every
declared field possibly absent. -/
structure RawWatchlistCreate where
  user_id : Option String := none
  tmdb_id : Option Int := none
  media_type : Option String := none
  title : Option String := none
  poster : Option String := none
  backdrop : Option String := none
  year : Option Int := none
  status : Option String := none
  liked : Option Bool := none
  rating : Option ℚ := none
deriving Repr, DecidableEq

/-- src/main.py lines 63-73: a validated `WatchlistCreate` payload. -/
structure WatchlistCreate where
  user_id : String
  tmdb_id : Int
  media_type : String := "movie"
  title : String
  poster : Option String := none
  backdrop : Option String := none
  year : Option Int := none
  status : String := "later"
  liked : Bool := false
  rating : Option ℚ := none
deriving Repr, DecidableEq

/-- Pydantic validation of `WatchlistCreate` (src/main.py lines 63-73),
performed by FastAPI before the handler body runs: `user_id`, `tmdb_id`,
`title` required; `media_type` and `status` restricted to their
`Literal` sets with defaults; `rating` restricted by
`Field(None, ge=0, le=10)`.  Pydantic reports every violation at once;
this model returns the first, which accepts and rejects the same
payloads. -/
def validate_watchlist_create (raw : RawWatchlistCreate) : Except String WatchlistCreate :=
  match raw.user_id with
  | none => .error "user_id: field required"
  | some uid =>
  match raw.tmdb_id with
  | none => .error "tmdb_id: field required"
  | some tid =>
  match raw.title with
  | none => .error "title: field required"
  | some t =>
  if raw.media_type.getD "movie" = "movie" ∨ raw.media_type.getD "movie" = "tv" then
    if raw.status.getD "later" = "later" ∨ raw.status.getD "later" = "watching" ∨
        raw.status.getD "later" = "watched" then
      match raw.rating with
      | some r =>
        if 0 ≤ r ∧ r ≤ 10 then
          .ok { user_id := uid, tmdb_id := tid, media_type := raw.media_type.getD "movie",
                title := t, poster := raw.poster, backdrop := raw.backdrop, year := raw.year,
                status := raw.status.getD "later", liked := raw.liked.getD false,
                rating := some r }
        else .error "rating: input should be between 0 and 10"
      | none =>
        .ok { user_id := uid, tmdb_id := tid, media_type := raw.media_type.getD "movie",
              title := t, poster := raw.poster, backdrop := raw.backdrop, year := raw.year,
              status := raw.status.getD "later", liked := raw.liked.getD false,
              rating := none }
    else .error "status: input should be a permitted literal"
  else .error "media_type: input should be a permitted literal"

/-- Modelled from the spec: `create_document` lives in the repository's
`database` module, which is absent from src/.  Per the spec it assigns
an identifier and a `created_at` timestamp, inserts the document, and
returns the new identifier. -/
def create_document (store : List WatchlistDoc) (p : WatchlistCreate)
    (newId : OID) (now : Nat) : OID × List WatchlistDoc :=
  (newId,
   store ++ [{ oid := newId, user_id := p.user_id, tmdb_id := some p.tmdb_id,
               media_type := p.media_type, title := p.title, poster := p.poster,
               backdrop := p.backdrop, year := p.year, status := p.status,
               liked := p.liked, rating := p.rating, created_at := now }])

/-- src/main.py lines 192-198 together with the FastAPI validation
boundary: an invalid body is rejected with a 422 before the handler
body (and hence the store) is reached. -/
def add_watchlist_item (store : List WatchlistDoc) (raw : RawWatchlistCreate)
    (newId : OID) (now : Nat) : ApiResult OID × List WatchlistDoc :=
  match validate_watchlist_create raw with
  | .error e => (ApiResult.err 422 e, store)
  | .ok p =>
    let r := create_document store p newId now
    (ApiResult.ok r.1, r.2)

/-! ### Helper lemmas about `map_item` -/

theorem map_item_fields (i : Item) (c : CanonItem) (h : map_item i = .ok c) :
    c.media_type = resolve_media_type i ∧ resolve_year i = .ok c.year := by
  unfold map_item at h
  cases hy : resolve_year i with
  | error e => rw [hy] at h; simp [Except.map] at h
  | ok y =>
    rw [hy] at h
    simp only [Except.map, Except.ok.injEq] at h
    subst h
    exact ⟨rfl, rfl⟩

theorem map_item_ok_of_resolve (i : Item) (y : Option Int) (h : resolve_year i = .ok y) :
    ∃ c, map_item i = .ok c := by
  unfold map_item
  rw [h]
  exact ⟨_, rfl⟩

/-! ### C1: media_type resolution in `map_item` -/

/-- C1 counterexample: an upstream record carrying both a `name` and a
`title` (and no `media_type`) is normalized to media_type "tv", whereas
the claim says every such record yields "movie".  The code
(src/main.py line 45) only tests `item.get("name")` and never consults
`title`. -/
theorem C1_counterexample :
    ((map_item { name := some "Breaking Bad", title := some "El Camino" }).map
        CanonItem.media_type = Except.ok "tv") ∧ "tv" ≠ "movie" :=
  ⟨rfl, by decide⟩

/-- C1 (amended): a non-empty upstream `media_type` value is passed
through; otherwise a non-empty `name` yields "tv" regardless of
`title`; otherwise "movie".  (Presence alone is not enough: Python
truthiness makes an empty-string field behave as absent.) -/
theorem C1_media_type_resolution (i : Item) (c : CanonItem) (h : map_item i = .ok c) :
    (truthy i.media_type = true → i.media_type = some c.media_type) ∧
    (truthy i.media_type = false → truthy i.name = true → c.media_type = "tv") ∧
    (truthy i.media_type = false → truthy i.name = false → c.media_type = "movie") := by
  obtain ⟨hmt, -⟩ := map_item_fields i c h
  unfold resolve_media_type at hmt
  refine ⟨?_, ?_, ?_⟩
  · intro h1
    rw [h1] at hmt
    simp only [if_true] at hmt
    cases him : i.media_type with
    | none => rw [him] at h1; simp [truthy] at h1
    | some s =>
      rw [him] at hmt
      simp only [Option.getD_some] at hmt
      rw [hmt]
  · intro h1 h2
    rw [h1, h2] at hmt
    simpa using hmt
  · intro h1 h2
    rw [h1, h2] at hmt
    simpa using hmt

/-- C1 witness: a record with only a `name` maps to media_type "tv". -/
theorem C1_media_type_resolution_witness :
    CanonItem.media_type
      { id := none, media_type := "tv", title := some "Only", overview := none,
        poster := none, backdrop := none, rating := none, votes := none, year := none }
      = "tv" :=
  (C1_media_type_resolution { name := some "Only" }
      { id := none, media_type := "tv", title := some "Only", overview := none,
        poster := none, backdrop := none, rating := none, votes := none, year := none }
      rfl).2.1 rfl rfl

/-! ### C3: exception behaviour of `map_item` -/

/-- C3 counterexample: a record whose `release_date` has a non-numeric
first dash-segment makes `map_item` raise (`int("abc")` raises
`ValueError` at src/main.py line 57) instead of yielding year null. -/
theorem C3_counterexample :
    map_item { release_date := some "abc-01-01" } = Except.error "ValueError" := rfl

/-- C3 (amended): `map_item` never raises on an object input *except*
when the selected date string is non-empty and its first dash-segment
is not parseable as an integer; under that proviso every record maps
successfully. -/
theorem C3_no_raise (i : Item)
    (h : truthy (date_field i) = true →
      (pyInt? (firstSeg ((date_field i).getD ""))).isSome = true) :
    ∃ c, map_item i = .ok c := by
  cases ht : truthy (date_field i) with
  | false =>
    apply map_item_ok_of_resolve i none
    simp [resolve_year, ht]
  | true =>
    have hs := h ht
    cases hp : pyInt? (firstSeg ((date_field i).getD "")) with
    | none => rw [hp] at hs; simp at hs
    | some n =>
      apply map_item_ok_of_resolve i (some n)
      simp [resolve_year, ht, hp]

/-- C3 witness: a well-formed date maps without raising. -/
theorem C3_no_raise_witness :
    ∃ c, map_item { release_date := some "2020-05-01" } = .ok c :=
  C3_no_raise { release_date := some "2020-05-01" } (fun _ => rfl)

/-! ### C4: media_type enum invariant -/

/-- C4 counterexample: an upstream record with an explicit
media_type "person" (as the trending feed can deliver) is passed
through unchanged, so the normalized media_type is not in
{"movie", "tv"}. -/
theorem C4_counterexample :
    ((map_item { media_type := some "person" }).map CanonItem.media_type
        = Except.ok "person") ∧
    "person" ≠ "movie" ∧ "person" ≠ "tv" :=
  ⟨rfl, by decide⟩

/-- C4 (amended): the normalized media_type is in {"movie", "tv"} for
every record whose explicit `media_type` field is absent or empty; an
explicit value is passed through unvalidated. -/
theorem C4_media_type_enum (i : Item) (c : CanonItem) (h : map_item i = .ok c)
    (hmt : truthy i.media_type = false) :
    c.media_type = "movie" ∨ c.media_type = "tv" := by
  obtain ⟨h1, -⟩ := map_item_fields i c h
  unfold resolve_media_type at h1
  rw [hmt] at h1
  cases hn : truthy i.name with
  | false => rw [hn] at h1; simp at h1; exact Or.inl h1
  | true => rw [hn] at h1; simp at h1; exact Or.inr h1

/-- C4 witness: a record with only a `name` maps into the enum. -/
theorem C4_media_type_enum_witness :
    CanonItem.media_type
      { id := none, media_type := "tv", title := some "Show", overview := none,
        poster := none, backdrop := none, rating := none, votes := none, year := none }
      = "movie" ∨
    CanonItem.media_type
      { id := none, media_type := "tv", title := some "Show", overview := none,
        poster := none, backdrop := none, rating := none, votes := none, year := none }
      = "tv" :=
  C4_media_type_enum { name := some "Show" }
    { id := none, media_type := "tv", title := some "Show", overview := none,
      poster := none, backdrop := none, rating := none, votes := none, year := none }
    rfl rfl

/-! ### C7: year extraction -/

/-- C7 counterexample: with `release_date` present but empty and
`first_air_date` = "1999-01-01", the code takes the year 1999 from
`first_air_date`, although the claim demands the first segment of the
*present* `release_date` — whose first segment "" has no integer
value. -/
theorem C7_counterexample :
    ((map_item { release_date := some "", first_air_date := some "1999-01-01" }).map
        CanonItem.year = Except.ok (some 1999)) ∧
    Item.release_date { release_date := some "", first_air_date := some "1999-01-01" }
      = some "" ∧
    pyInt? (firstSeg "") = none :=
  ⟨rfl, rfl, rfl⟩

/-- C7 (amended): the year is the integer value of the first
dash-segment of `release_date` when that field is non-empty, else of
`first_air_date` when that is non-empty, and null when both are absent
or empty (an empty string behaves like absence under Python
truthiness). -/
theorem C7_year_extraction (i : Item) (c : CanonItem) (h : map_item i = .ok c) :
    (truthy i.release_date = true →
        c.year = pyInt? (firstSeg (i.release_date.getD ""))) ∧
    (truthy i.release_date = false → truthy i.first_air_date = true →
        c.year = pyInt? (firstSeg (i.first_air_date.getD ""))) ∧
    (truthy i.release_date = false → truthy i.first_air_date = false →
        c.year = none) := by
  obtain ⟨-, hy⟩ := map_item_fields i c h
  unfold resolve_year date_field pyOr at hy
  refine ⟨?_, ?_, ?_⟩
  · intro h1
    rw [h1] at hy
    simp only [if_true, h1] at hy
    cases hp : pyInt? (firstSeg (i.release_date.getD "")) with
    | none => rw [hp] at hy; simp at hy
    | some n => rw [hp] at hy; simp at hy; exact hy.symm
  · intro h1 h2
    rw [h1] at hy
    simp only [if_false, Bool.false_eq_true, h2, if_true] at hy
    cases hp : pyInt? (firstSeg (i.first_air_date.getD "")) with
    | none => rw [hp] at hy; simp at hy
    | some n => rw [hp] at hy; simp at hy; exact hy.symm
  · intro h1 h2
    rw [h1] at hy
    simp only [if_false, Bool.false_eq_true, h2] at hy
    simpa using hy.symm

/-- C7 witness: "2020-05-01" yields year 2020; no dates yield null. -/
theorem C7_year_extraction_witness :
    (CanonItem.year
        { id := none, media_type := "movie", title := none, overview := none,
          poster := none, backdrop := none, rating := none, votes := none,
          year := some 2020 } = some 2020) ∧
    (CanonItem.year
        { id := none, media_type := "movie", title := none, overview := none,
          poster := none, backdrop := none, rating := none, votes := none,
          year := none } = none) :=
  ⟨(C7_year_extraction { release_date := some "2020-05-01" }
      { id := none, media_type := "movie", title := none, overview := none,
        poster := none, backdrop := none, rating := none, votes := none,
        year := some 2020 } rfl).1 rfl,
   (C7_year_extraction {}
      { id := none, media_type := "movie", title := none, overview := none,
        poster := none, backdrop := none, rating := none, votes := none,
        year := none } rfl).2.2 rfl rfl⟩

/-! ### C9: trailer selection -/

theorem trailer_key_cons_neg (a : Video) (l : List Video)
    (ha : isYouTubeTrailer a = false) : trailer_key (a :: l) = trailer_key l := by
  unfold trailer_key
  rw [List.find?_cons_of_neg _ (by simp [ha])]

theorem trailer_key_cons_pos (v : Video) (l : List Video)
    (hv : isYouTubeTrailer v = true) : trailer_key (v :: l) = v.key := by
  unfold trailer_key
  rw [List.find?_cons_of_pos _ hv]

/-- C9: trailer_key is the key of the first video in upstream order
whose site is "YouTube" and whose type is "Trailer" or "Teaser"; if no
video qualifies it is null. -/
theorem C9_trailer_selection :
    (∀ (videos : List Video), (∀ v ∈ videos, isYouTubeTrailer v = false) →
        trailer_key videos = none) ∧
    (∀ (pre : List Video) (v : Video) (post : List Video),
        (∀ u ∈ pre, isYouTubeTrailer u = false) → isYouTubeTrailer v = true →
        trailer_key (pre ++ v :: post) = v.key) := by
  constructor
  · intro videos hall
    unfold trailer_key
    have : videos.find? isYouTubeTrailer = none := by
      rw [List.find?_eq_none]
      intro x hx
      simp [hall x hx]
    rw [this]
  · intro pre v post hpre hv
    induction pre with
    | nil => simpa using trailer_key_cons_pos v post hv
    | cons a rest ih =>
      have ha : isYouTubeTrailer a = false := hpre a (List.mem_cons_self a rest)
      have hrest : ∀ u ∈ rest, isYouTubeTrailer u = false :=
        fun u hu => hpre u (List.mem_cons_of_mem a hu)
      rw [List.cons_append, trailer_key_cons_neg a _ ha]
      exact ih hrest

/-- C9 witness: the spec's example — a Clip followed by a Trailer with
key "abc" selects "abc". -/
theorem C9_trailer_selection_witness :
    trailer_key [{ site := some "YouTube", type := some "Clip" },
                 { site := some "YouTube", type := some "Trailer", key := some "abc" }]
      = some "abc" :=
  C9_trailer_selection.2 [{ site := some "YouTube", type := some "Clip" }]
    { site := some "YouTube", type := some "Trailer", key := some "abc" } []
    (by decide) rfl

/-! ### C2: NotFound on missing update/delete target -/

/-- C2: updating or deleting a nonexistent identifier leaves the store
unchanged but responds 500, not 404: the handlers raise
`HTTPException(404)` inside their `try` block, whose blanket
`except Exception` re-raises it as `HTTPException(500, str(e))`
(src/main.py lines 210-214 and 222-226). -/
theorem C2_notfound_masked_as_500 :
    (update_watchlist_item [{ oid := 1, user_id := "u", title := "T", created_at := 0 }] 7
        { status := some "watched" } 5
      = (ApiResult.err 500 "404: Item not found",
         [{ oid := 1, user_id := "u", title := "T", created_at := 0 }])) ∧
    (delete_watchlist_item [{ oid := 1, user_id := "u", title := "T", created_at := 0 }] 7
      = (ApiResult.err 500 "404: Item not found",
         [{ oid := 1, user_id := "u", title := "T", created_at := 0 }])) :=
  ⟨rfl, rfl⟩

/-! ### C5: empty update payload is a no-op -/

/-- C5: an update whose payload provides no fields returns the distinct
"no-op" result and leaves the whole store (hence any stored document,
including its updated_at) unchanged. -/
theorem C5_empty_update_is_noop (store : List WatchlistDoc) (item_id : OID)
    (p : WatchlistUpdate) (now : Nat)
    (h : p.status = none ∧ p.liked = none ∧ p.rating = none) :
    update_watchlist_item store item_id p now = (ApiResult.ok "no-op", store) := by
  obtain ⟨h1, h2, h3⟩ := h
  unfold update_watchlist_item
  simp [WatchlistUpdate.isEmptyUpdate, h1, h2, h3]

/-- C5 witness: an empty payload against a store holding the addressed
document. -/
theorem C5_empty_update_is_noop_witness :
    update_watchlist_item [{ oid := 2, user_id := "u", title := "T", created_at := 1 }] 2 {} 9
      = (ApiResult.ok "no-op",
         [{ oid := 2, user_id := "u", title := "T", created_at := 1 }]) :=
  C5_empty_update_is_noop _ 2 {} 9 ⟨rfl, rfl, rfl⟩

/-! ### C10: the no-op check precedes the existence check -/

/-- C10: an empty update payload succeeds with the "no-op" result even
when no document carries the given identifier — the emptiness check at
src/main.py line 206 runs before the store is consulted. -/
theorem C10_noop_precedes_existence_check (store : List WatchlistDoc) (item_id : OID)
    (now : Nat) (_h : ∀ d ∈ store, d.oid ≠ item_id) :
    update_watchlist_item store item_id {} now = (ApiResult.ok "no-op", store) := by
  unfold update_watchlist_item
  simp [WatchlistUpdate.isEmptyUpdate]

/-- C10 witness: empty payload against an empty store. -/
theorem C10_noop_precedes_existence_check_witness :
    update_watchlist_item [] 7 {} 3 = (ApiResult.ok "no-op", []) :=
  C10_noop_precedes_existence_check [] 7 3 (by decide)

/-! ### C6: partial-update frame property -/

theorem update_one_append (pre : List WatchlistDoc) (d : WatchlistDoc)
    (post : List WatchlistDoc) (id : OID) (p : WatchlistUpdate) (now : Nat)
    (hpre : ∀ e ∈ pre, e.oid ≠ id) (hd : d.oid = id) :
    update_one (pre ++ d :: post) id p now = (pre ++ applySet d p now :: post, 1) := by
  induction pre with
  | nil => simp [update_one, hd]
  | cons a rest ih =>
    have ha : a.oid ≠ id := hpre a (List.mem_cons_self a rest)
    have hrest : ∀ e ∈ rest, e.oid ≠ id := fun e he => hpre e (List.mem_cons_of_mem a he)
    simp [update_one, ha, ih hrest]

/-- C6: an update with at least one provided field succeeds on the
matched document, replacing it by `$set` of exactly the provided
fields plus a refreshed updated_at; every other field of the document,
and every other document, is untouched, and absent fields are never
nulled. -/
theorem C6_partial_update_frame (pre post : List WatchlistDoc) (d : WatchlistDoc)
    (item_id : OID) (p : WatchlistUpdate) (now : Nat)
    (hne : p.isEmptyUpdate = false)
    (hpre : ∀ e ∈ pre, e.oid ≠ item_id)
    (hd : d.oid = item_id) :
    update_watchlist_item (pre ++ d :: post) item_id p now
      = (ApiResult.ok "ok", pre ++ applySet d p now :: post) ∧
    (applySet d p now).user_id = d.user_id ∧
    (applySet d p now).tmdb_id = d.tmdb_id ∧
    (applySet d p now).title = d.title ∧
    (applySet d p now).media_type = d.media_type ∧
    (applySet d p now).year = d.year ∧
    (applySet d p now).poster = d.poster ∧
    (applySet d p now).backdrop = d.backdrop ∧
    (applySet d p now).created_at = d.created_at ∧
    (applySet d p now).oid = d.oid ∧
    (applySet d p now).updated_at = some now ∧
    (p.status = none → (applySet d p now).status = d.status) ∧
    (p.liked = none → (applySet d p now).liked = d.liked) ∧
    (p.rating = none → (applySet d p now).rating = d.rating) ∧
    (∀ s, p.status = some s → (applySet d p now).status = s) ∧
    (∀ b, p.liked = some b → (applySet d p now).liked = b) ∧
    (∀ r, p.rating = some r → (applySet d p now).rating = some r) := by
  refine ⟨?_, rfl, rfl, rfl, rfl, rfl, rfl, rfl, rfl, rfl, rfl,
    ?_, ?_, ?_, ?_, ?_, ?_⟩
  · unfold update_watchlist_item
    rw [hne]
    simp [update_one_append pre d post item_id p now hpre hd]
  · intro hs; simp [applySet, hs]
  · intro hl; simp [applySet, hl]
  · intro hr; simp [applySet, hr]
  · intro s hs; simp [applySet, hs]
  · intro b hl; simp [applySet, hl]
  · intro r hr; simp [applySet, hr]

/-- C6 witness: setting only `status` on a stored document refreshes
status and updated_at and nothing else. -/
theorem C6_partial_update_frame_witness :
    update_watchlist_item [{ oid := 5, user_id := "u", title := "T", created_at := 3 }] 5
        { status := some "watched" } 9
      = (ApiResult.ok "ok",
         [{ oid := 5, user_id := "u", title := "T", created_at := 3,
            status := "watched", updated_at := some 9 }]) :=
  (C6_partial_update_frame [] [] { oid := 5, user_id := "u", title := "T", created_at := 3 }
      5 { status := some "watched" } 9 rfl (by decide) rfl).1

/-! ### C8: rating range validation on create -/

theorem validate_ok_rating_bound (raw : RawWatchlistCreate) (p : WatchlistCreate) (r : ℚ)
    (h : validate_watchlist_create raw = .ok p) (hr : raw.rating = some r) :
    0 ≤ r ∧ r ≤ 10 := by
  unfold validate_watchlist_create at h
  cases hu : raw.user_id <;> rw [hu] at h
  · simp at h
  cases ht : raw.tmdb_id <;> rw [ht] at h
  · simp at h
  cases htt : raw.title <;> rw [htt] at h
  · simp at h
  rw [hr] at h
  split_ifs at h with h1 h2
  · by_cases h3 : 0 ≤ r ∧ r ≤ 10
    · exact h3
    · simp [h3] at h

/-- C8: a create payload whose rating lies outside [0, 10] is rejected
with a validation error before any store operation, leaving the store
unchanged. -/
theorem C8_bad_rating_rejected (store : List WatchlistDoc) (raw : RawWatchlistCreate)
    (newId : OID) (now : Nat) (r : ℚ)
    (hr : raw.rating = some r) (hout : r < 0 ∨ 10 < r) :
    (add_watchlist_item store raw newId now).2 = store ∧
    ∃ e, (add_watchlist_item store raw newId now).1 = ApiResult.err 422 e := by
  cases hv : validate_watchlist_create raw with
  | error e =>
    unfold add_watchlist_item
    rw [hv]
    exact ⟨rfl, e, rfl⟩
  | ok p =>
    obtain ⟨h0, h10⟩ := validate_ok_rating_bound raw p r hv hr
    rcases hout with hlt | hgt
    · exact absurd h0 (not_le.mpr hlt)
    · exact absurd h10 (not_le.mpr hgt)

/-- C8 witness: rating 11 is rejected and the (empty) store is
untouched. -/
theorem C8_bad_rating_rejected_witness :
    (add_watchlist_item []
        { user_id := some "u", tmdb_id := some 1, title := some "T", rating := some 11 }
        9 0).2 = [] ∧
    ∃ e, (add_watchlist_item []
        { user_id := some "u", tmdb_id := some 1, title := some "T", rating := some 11 }
        9 0).1 = ApiResult.err 422 e :=
  C8_bad_rating_rejected [] _ 9 0 11 rfl (Or.inr (by norm_num))

end Moviesque
